import Mathlib

/-!
Shallow embedding of the Payvia Soroban contract
(`src/payvia/contracts/payvia/src/lib.rs`).

Addresses are modelled as `Nat` (opaque identities), Soroban `String` as
Lean `String`, `i128` balances as `Int` (the claims under study concern
sign and equality of balances at small magnitudes, not 128-bit wraparound;
under the toolchain's overflow checks an overflowing operation traps with
no state change, so successful executions agree with `Int` arithmetic).
Soroban `Map` is modelled as an association list with replace-or-append
`set`; the contract's instance storage is the `ContractState` record, and
the ambient `Env` supplies `current_contract_address` and the ledger
timestamp.  An operation that can panic (an `unwrap` of an absent storage
slot) returns `Option`, with `none` for the panic; all other operations
are total and return their `Result` value together with the updated
storage state.
-/

namespace Payvia

/-- `User` struct from the source: address, phone, is_verified, balance. -/
structure User where
  address : Nat
  phone : String
  is_verified : Bool
  balance : Int
  deriving Repr, DecidableEq

/-- `BillPayment` struct from the source. -/
structure BillPayment where
  id : String
  user_address : Nat
  bill_type : String
  account_number : String
  amount : Int
  status : String
  timestamp : Nat
  deriving Repr, DecidableEq

/-- `Withdrawal` struct from the source. -/
structure Withdrawal where
  id : String
  user_address : Nat
  method : String
  account_number : String
  usdc_amount : Int
  ugx_amount : Int
  status : String
  timestamp : Nat
  deriving Repr, DecidableEq

/-- The ambient Soroban environment: the contract's own address
(`env.current_contract_address()`) and the ledger timestamp
(`env.ledger().timestamp()`). -/
structure Env where
  contractAddress : Nat
  timestamp : Nat
  deriving Repr, DecidableEq

instance {ε α : Type} [DecidableEq ε] [DecidableEq α] : DecidableEq (Except ε α) :=
  fun a b =>
    match a, b with
    | .error e1, .error e2 => decidable_of_iff (e1 = e2) (by simp)
    | .ok v1, .ok v2 => decidable_of_iff (v1 = v2) (by simp)
    | .error _, .ok _ => isFalse (by simp)
    | .ok _, .error _ => isFalse (by simp)

/-- Soroban `Map<K, V>` modelled as an association list. -/
abbrev AssocMap (K V : Type) := List (K × V)

/-- `Map::get`: the value stored at `k`, if any. -/
def mget {K V : Type} [DecidableEq K] : AssocMap K V → K → Option V
  | [], _ => none
  | p :: rest, k => if p.1 = k then some p.2 else mget rest k

/-- `Map::set`: replace the binding of `k` if present, else add one. -/
def mset {K V : Type} [DecidableEq K] : AssocMap K V → K → V → AssocMap K V
  | [], k, v => [(k, v)]
  | p :: rest, k, v => if p.1 = k then (k, v) :: rest else p :: mset rest k v

/-- `Map::contains_key`. -/
def containsKey {K V : Type} [DecidableEq K] (m : AssocMap K V) (k : K) : Bool :=
  (mget m k).isSome

/-- The contract's instance storage: the `admin` slot (absent before
`init`), and the `users`, `bills` and `withdrawals` maps (an absent map
slot is read back as empty via `unwrap_or(Map::new)`, so `[]` models it). -/
structure ContractState where
  admin : Option Nat
  users : AssocMap Nat User
  bills : AssocMap String BillPayment
  withdrawals : AssocMap String Withdrawal
  deriving Repr, DecidableEq

/-- The pre-`init` state: nothing stored. -/
def emptyState : ContractState :=
  { admin := none, users := [], bills := [], withdrawals := [] }

/-- `init`: stores the contract's own address in the `admin` slot. -/
def init (env : Env) (st : ContractState) : ContractState :=
  { st with admin := some env.contractAddress }

/-- `register_user`: fails when the identity is already present, else
stores a fresh account with balance 0 and `is_verified = false`. -/
def register_user (st : ContractState) (user_address : Nat) (phone : String) :
    Except String Unit × ContractState :=
  let users := st.users
  if containsKey users user_address then
    (Except.error "User already exists", st)
  else
    let user : User :=
      { address := user_address, phone := phone, is_verified := false, balance := 0 }
    let updated_users := mset users user_address user
    (Except.ok (), { st with users := updated_users })

/-- `get_user`: read-only lookup. -/
def get_user (st : ContractState) (user_address : Nat) : Except String User :=
  match mget st.users user_address with
  | some u => Except.ok u
  | none => Except.error "User not found"

/-- `verify_user`: sets the verification flag. -/
def verify_user (st : ContractState) (user_address : Nat) :
    Except String Unit × ContractState :=
  match mget st.users user_address with
  | none => (Except.error "User not found", st)
  | some user =>
    let user' := { user with is_verified := true }
    (Except.ok (), { st with users := mset st.users user_address user' })

/-- `deposit`: adds `amount` to the user's balance (no sign check). -/
def deposit (st : ContractState) (user_address : Nat) (amount : Int) :
    Except String Unit × ContractState :=
  match mget st.users user_address with
  | none => (Except.error "User not found", st)
  | some user =>
    let user' := { user with balance := user.balance + amount }
    (Except.ok (), { st with users := mset st.users user_address user' })

/-- `get_balance`. -/
def get_balance (st : ContractState) (user_address : Nat) : Except String Int :=
  match mget st.users user_address with
  | some user => Except.ok user.balance
  | none => Except.error "User not found"

/-- `send_usdc`: reads both records, checks the sender's balance, then
writes the decremented sender record and the incremented recipient
record back in that order. -/
def send_usdc (st : ContractState) (from_address to_address : Nat) (amount : Int) :
    Except String Unit × ContractState :=
  match mget st.users from_address with
  | none => (Except.error "Sender not found", st)
  | some from_user =>
    match mget st.users to_address with
    | none => (Except.error "Recipient not found", st)
    | some to_user =>
      if from_user.balance < amount then
        (Except.error "Insufficient balance", st)
      else
        let from_user' := { from_user with balance := from_user.balance - amount }
        let to_user' := { to_user with balance := to_user.balance + amount }
        let users' := mset (mset st.users from_address from_user') to_address to_user'
        (Except.ok (), { st with users := users' })

/-- `pay_bill`: debit, then record a pending `BillPayment` keyed by
`format!("bill_{}", timestamp)` and return that id. -/
def pay_bill (env : Env) (st : ContractState) (user_address : Nat)
    (bill_type account_number : String) (amount : Int) :
    Except String String × ContractState :=
  match mget st.users user_address with
  | none => (Except.error "User not found", st)
  | some user =>
    if user.balance < amount then
      (Except.error "Insufficient balance", st)
    else
      let user' := { user with balance := user.balance - amount }
      let users' := mset st.users user_address user'
      let payment_id := "bill_" ++ Nat.repr env.timestamp
      let bill_payment : BillPayment :=
        { id := payment_id, user_address := user_address, bill_type := bill_type,
          account_number := account_number, amount := amount,
          status := "pending", timestamp := env.timestamp }
      let bills' := mset st.bills payment_id bill_payment
      (Except.ok payment_id, { st with users := users', bills := bills' })

/-- `withdraw`: debit `usdc_amount`, then record a pending `Withdrawal`
keyed by `format!("withdraw_{}", timestamp)` and return that id. -/
def withdraw (env : Env) (st : ContractState) (user_address : Nat)
    (method account_number : String) (usdc_amount ugx_amount : Int) :
    Except String String × ContractState :=
  match mget st.users user_address with
  | none => (Except.error "User not found", st)
  | some user =>
    if user.balance < usdc_amount then
      (Except.error "Insufficient balance", st)
    else
      let user' := { user with balance := user.balance - usdc_amount }
      let users' := mset st.users user_address user'
      let withdrawal_id := "withdraw_" ++ Nat.repr env.timestamp
      let withdrawal : Withdrawal :=
        { id := withdrawal_id, user_address := user_address, method := method,
          account_number := account_number, usdc_amount := usdc_amount,
          ugx_amount := ugx_amount, status := "pending", timestamp := env.timestamp }
      let withdrawals' := mset st.withdrawals withdrawal_id withdrawal
      (Except.ok withdrawal_id, { st with users := users', withdrawals := withdrawals' })

/-- `get_bill_payments`: iterate the bills map, pushing the records owned
by `user_address` in iteration order. -/
def get_bill_payments (st : ContractState) (user_address : Nat) : List BillPayment :=
  st.bills.foldl
    (fun acc p => if p.2.user_address = user_address then acc ++ [p.2] else acc) []

/-- `get_withdrawals`: iterate the withdrawals map, pushing the records
owned by `user_address` in iteration order. -/
def get_withdrawals (st : ContractState) (user_address : Nat) : List Withdrawal :=
  st.withdrawals.foldl
    (fun acc p => if p.2.user_address = user_address then acc ++ [p.2] else acc) []

/-- `update_bill_status`: unwraps the `admin` slot (`none` = panic),
compares the contract's own address against it, then overwrites the
status of the named payment. -/
def update_bill_status (env : Env) (st : ContractState) (payment_id status : String) :
    Option (Except String Unit × ContractState) :=
  match st.admin with
  | none => none
  | some admin =>
    if env.contractAddress ≠ admin then
      some (Except.error "Unauthorized", st)
    else
      match mget st.bills payment_id with
      | none => some (Except.error "Payment not found", st)
      | some payment =>
        let payment' := { payment with status := status }
        some (Except.ok (), { st with bills := mset st.bills payment_id payment' })

/-- `update_withdrawal_status`: same shape as `update_bill_status`, on the
withdrawals map. -/
def update_withdrawal_status (env : Env) (st : ContractState)
    (withdrawal_id status : String) :
    Option (Except String Unit × ContractState) :=
  match st.admin with
  | none => none
  | some admin =>
    if env.contractAddress ≠ admin then
      some (Except.error "Unauthorized", st)
    else
      match mget st.withdrawals withdrawal_id with
      | none => some (Except.error "Withdrawal not found", st)
      | some withdrawal =>
        let withdrawal' := { withdrawal with status := status }
        some (Except.ok (),
          { st with withdrawals := mset st.withdrawals withdrawal_id withdrawal' })

/-! ### Sequences of balance-mutating operations (for the ledger invariant) -/

/-- One invocation of a balance-mutating public operation, with the
ledger timestamp the environment supplied for it where relevant. -/
inductive Op where
  | dep (user : Nat) (amount : Int)
  | send (src dst : Nat) (amount : Int)
  | bill (user : Nat) (bill_type account_number : String) (amount : Int) (ts : Nat)
  | wdraw (user : Nat) (method account_number : String)
      (usdc_amount ugx_amount : Int) (ts : Nat)
  deriving Repr, DecidableEq

/-- Run one operation; `none` when it returned an error. -/
def runOp (st : ContractState) : Op → Option ContractState
  | .dep u a =>
    match deposit st u a with
    | (Except.ok _, st') => some st'
    | (Except.error _, _) => none
  | .send f t a =>
    match send_usdc st f t a with
    | (Except.ok _, st') => some st'
    | (Except.error _, _) => none
  | .bill u bt acct a ts =>
    match pay_bill ⟨0, ts⟩ st u bt acct a with
    | (Except.ok _, st') => some st'
    | (Except.error _, _) => none
  | .wdraw u m acct ua ga ts =>
    match withdraw ⟨0, ts⟩ st u m acct ua ga with
    | (Except.ok _, st') => some st'
    | (Except.error _, _) => none

/-- Run a sequence of operations; `some` exactly when every operation
individually succeeded. -/
def runOps (st : ContractState) : List Op → Option ContractState
  | [] => some st
  | op :: rest =>
    match runOp st op with
    | some st' => runOps st' rest
    | none => none

/-- Every registered account's balance is nonnegative. -/
def balancesNonneg (st : ContractState) : Prop :=
  ∀ p ∈ st.users, 0 ≤ (p : Nat × User).2.balance

instance : DecidablePred balancesNonneg := fun st =>
  inferInstanceAs (Decidable (∀ p ∈ st.users, 0 ≤ (p : Nat × User).2.balance))

/-- The credited amount of the operation is nonnegative (debits are
guarded by the balance check, so only deposits and transfers need it). -/
def nonnegAmount : Op → Prop
  | .dep _ a => 0 ≤ a
  | .send _ _ a => 0 ≤ a
  | .bill _ _ _ _ _ => True
  | .wdraw _ _ _ _ _ _ => True

instance : DecidablePred nonnegAmount := fun op =>
  match op with
  | .dep _ a => inferInstanceAs (Decidable (0 ≤ a))
  | .send _ _ a => inferInstanceAs (Decidable (0 ≤ a))
  | .bill _ _ _ _ _ => inferInstanceAs (Decidable True)
  | .wdraw _ _ _ _ _ _ => inferInstanceAs (Decidable True)

/-! ### Concrete states used to exercise the operations -/

/-- The account record `register_user` creates. -/
def freshUser (u : Nat) (phone : String) : User :=
  { address := u, phone := phone, is_verified := false, balance := 0 }

/-- A state holding the single account `1` with the given balance. -/
def oneUserState (b : Int) : ContractState :=
  { admin := none,
    users := [(1, { address := 1, phone := "555-0100", is_verified := false, balance := b })],
    bills := [], withdrawals := [] }

/-- A state holding accounts `1` and `2` with the given balances. -/
def twoUserState (b1 b2 : Int) : ContractState :=
  { admin := none,
    users :=
      [(1, { address := 1, phone := "555-0100", is_verified := false, balance := b1 }),
       (2, { address := 2, phone := "555-0200", is_verified := false, balance := b2 })],
    bills := [], withdrawals := [] }

/-- A pending bill-payment record created at timestamp 100 by account 1. -/
def pendingBill : BillPayment :=
  { id := "bill_100", user_address := 1, bill_type := "electricity",
    account_number := "ACC123", amount := 300, status := "pending", timestamp := 100 }

/-- A pending withdrawal record created at timestamp 100 by account 1. -/
def pendingWithdrawal : Withdrawal :=
  { id := "withdraw_100", user_address := 1, method := "mobile",
    account_number := "ACC123", usdc_amount := 300, ugx_amount := 1110000,
    status := "pending", timestamp := 100 }

/-- A post-`init` state (contract address 7) holding one account, one
pending bill and one pending withdrawal. -/
def billState : ContractState :=
  { admin := some 7,
    users := [(1, { address := 1, phone := "555-0100", is_verified := false, balance := 700 })],
    bills := [("bill_100", pendingBill)],
    withdrawals := [("withdraw_100", pendingWithdrawal)] }

/-- `billState` before `init` has run: the admin slot is empty. -/
def billStateNoAdmin : ContractState :=
  { billState with admin := none }

/-! ### Decimal numerals (for uniqueness of the timestamp-derived ids) -/

/-- Numeric value of a decimal digit character. -/
def digitVal (c : Char) : Nat := c.toNat - 48

/-- Read a decimal digit string back into a number (left inverse of
`Nat.toDigits 10`). -/
def unreprAux (a : Nat) (l : List Char) : Nat :=
  l.foldl (fun acc c => 10 * acc + digitVal c) a

/-! ### Association-map lemmas -/

theorem mem_mset {K V : Type} [DecidableEq K] {m : AssocMap K V} {k : K} {v : V} :
    ∀ q ∈ mset m k v, q = (k, v) ∨ q ∈ m := by
  induction m with
  | nil => intro q hq; simp [mset] at hq; left; simpa using hq
  | cons p rest ih =>
    intro q hq
    by_cases h : p.1 = k
    · simp [mset, h] at hq
      rcases hq with hq | hq
      · left; simpa using hq
      · right; simp [hq]
    · simp [mset, h] at hq
      rcases hq with hq | hq
      · right; simp [hq]
      · rcases ih q hq with h' | h'
        · left; exact h'
        · right; simp [h']

theorem mget_mem {K V : Type} [DecidableEq K] {m : AssocMap K V} {k : K} {v : V}
    (h : mget m k = some v) : (k, v) ∈ m := by
  induction m with
  | nil => simp [mget] at h
  | cons p rest ih =>
    by_cases hp : p.1 = k
    · simp [mget, hp] at h
      subst hp; subst h
      simp
    · simp [mget, hp] at h
      simp [ih h]

theorem mget_mset_self {K V : Type} [DecidableEq K] (m : AssocMap K V) (k : K) (v : V) :
    mget (mset m k v) k = some v := by
  induction m with
  | nil => simp [mset, mget]
  | cons p rest ih =>
    by_cases hp : p.1 = k
    · simp [mset, hp, mget]
    · simp [mset, hp, mget, ih]

theorem mget_mset_ne {K V : Type} [DecidableEq K] (m : AssocMap K V) (k k' : K) (v : V)
    (h : k ≠ k') : mget (mset m k v) k' = mget m k' := by
  induction m with
  | nil => simp [mset, mget, h]
  | cons p rest ih =>
    by_cases hp : p.1 = k
    · simp [mset, hp, mget, h]
    · simp [mset, hp, mget, ih]

/-! ### Preservation of the nonnegative-balance invariant -/

theorem runOp_preserves_nonneg {st st' : ContractState} {op : Op}
    (hop : nonnegAmount op) (hst : balancesNonneg st)
    (h : runOp st op = some st') : balancesNonneg st' := by
  cases op with
  | dep u a =>
    simp only [runOp, deposit] at h
    cases hmg : mget st.users u with
    | none => rw [hmg] at h; simp at h
    | some user =>
      rw [hmg] at h; simp at h
      subst h
      intro q hq
      rcases mem_mset q hq with rfl | hq'
      · have : 0 ≤ user.balance := hst _ (mget_mem hmg)
        simpa using add_nonneg this hop
      · exact hst q hq'
  | send f t a =>
    simp only [runOp, send_usdc] at h
    cases hf : mget st.users f with
    | none => rw [hf] at h; simp at h
    | some fu =>
      rw [hf] at h
      cases ht : mget st.users t with
      | none => rw [ht] at h; simp at h
      | some tu =>
        rw [ht] at h
        by_cases hb : fu.balance < a
        · simp [hb] at h
        · simp [hb] at h
          subst h
          intro q hq
          rcases mem_mset q hq with rfl | hq'
          · have : 0 ≤ tu.balance := hst _ (mget_mem ht)
            simpa using add_nonneg this hop
          · rcases mem_mset q hq' with rfl | hq''
            · simpa using sub_nonneg.mpr (not_lt.mp hb)
            · exact hst q hq''
  | bill u bt acct a ts =>
    simp only [runOp, pay_bill] at h
    cases hmg : mget st.users u with
    | none => rw [hmg] at h; simp at h
    | some user =>
      rw [hmg] at h
      by_cases hb : user.balance < a
      · simp [hb] at h
      · simp [hb] at h
        subst h
        intro q hq
        rcases mem_mset q hq with rfl | hq'
        · simpa using sub_nonneg.mpr (not_lt.mp hb)
        · exact hst q hq'
  | wdraw u m acct ua ga ts =>
    simp only [runOp, withdraw] at h
    cases hmg : mget st.users u with
    | none => rw [hmg] at h; simp at h
    | some user =>
      rw [hmg] at h
      by_cases hb : user.balance < ua
      · simp [hb] at h
      · simp [hb] at h
        subst h
        intro q hq
        rcases mem_mset q hq with rfl | hq'
        · simpa using sub_nonneg.mpr (not_lt.mp hb)
        · exact hst q hq'

theorem runOps_preserves_nonneg {ops : List Op} :
    ∀ {st st' : ContractState}, (∀ op ∈ ops, nonnegAmount op) →
      balancesNonneg st → runOps st ops = some st' → balancesNonneg st' := by
  induction ops with
  | nil => intro st st' _ hst h; simp [runOps] at h; subst h; exact hst
  | cons op rest ih =>
    intro st st' hops hst h
    simp only [runOps] at h
    cases hop : runOp st op with
    | none => rw [hop] at h; simp at h
    | some st₁ =>
      rw [hop] at h
      exact ih (fun o ho => hops o (List.mem_cons_of_mem _ ho))
        (runOp_preserves_nonneg (hops op (List.mem_cons_self op rest)) hst hop) h

/-! ### C1 -/

/-- C1 (counterexample): starting from a registered account with balance
0 — all balances nonnegative — the single-operation sequence
`deposit(1, -1)` succeeds (deposit performs no sign or sufficiency
check), after which account 1's balance is `-1`: the claim that balances
never go negative after a sequence of individually successful operations
fails. -/
theorem c1_counterexample :
    balancesNonneg (oneUserState 0) ∧
    runOps (oneUserState 0) [Op.dep 1 (-1)] = some (oneUserState (-1)) ∧
    ¬ balancesNonneg (oneUserState (-1)) :=
  ⟨by decide, by decide, by decide⟩

/-- C1 (amended): for every finite sequence of deposit, transfer
(`send_usdc`), payment-debit (`pay_bill`) and withdrawal-debit
(`withdraw`) operations in which each operation individually succeeded
and every deposit and transfer amount is nonnegative, every account's
balance is nonnegative afterwards (the debiting operations are guarded
by the balance check, so they need no amount restriction). -/
theorem c1_balances_never_negative (st st' : ContractState) (ops : List Op)
    (hops : ∀ op ∈ ops, nonnegAmount op) (hst : balancesNonneg st)
    (h : runOps st ops = some st') : balancesNonneg st' :=
  runOps_preserves_nonneg hops hst h

/-- C1 witness: a concrete deposit–transfer–bill–withdraw run from a
fresh two-account state ends with all balances nonnegative. -/
theorem c1_witness : balancesNonneg
    ((runOps (twoUserState 0 0)
        [Op.dep 1 1000, Op.send 1 2 400, Op.bill 1 "electricity" "ACC123" 300 100,
         Op.wdraw 2 "mobile" "ACC99" 150 555000 101]).getD emptyState) :=
  c1_balances_never_negative (twoUserState 0 0)
    ((runOps (twoUserState 0 0)
        [Op.dep 1 1000, Op.send 1 2 400, Op.bill 1 "electricity" "ACC123" 300 100,
         Op.wdraw 2 "mobile" "ACC99" 150 555000 101]).getD emptyState)
    [Op.dep 1 1000, Op.send 1 2 400, Op.bill 1 "electricity" "ACC123" 300 100,
     Op.wdraw 2 "mobile" "ACC99" 150 555000 101]
    (by decide) (by decide) (by decide)

/-! ### C2 -/

/-- C2 (code evaluated at the failing input): with account 1 registered
at balance 10, the self-transfer `send_usdc(1, 1, 5)` succeeds, but the
balance afterwards is 15, not the unchanged 10 the claim states: the
recipient record (read before the debit) is written back last and
overwrites the debited sender record, crediting the account without
debiting it. -/
theorem c2_self_transfer_mints :
    (send_usdc (oneUserState 10) 1 1 5).1 = Except.ok () ∧
    get_balance (send_usdc (oneUserState 10) 1 1 5).2 1 = Except.ok 15 ∧
    get_balance (send_usdc (oneUserState 10) 1 1 5).2 1 ≠ Except.ok 10 :=
  ⟨by decide, by decide, by decide⟩

/-! ### C6 -/

/-- C6: when both sender and recipient are registered and the sender's
balance is strictly below the transfer amount, `send_usdc` returns the
`Insufficient balance` error and the state — hence every account's
balance — is exactly the pre-call state: the failed transfer is atomic. -/
theorem c6_insufficient_transfer_atomic (st : ContractState) (A B : Nat) (a : Int)
    (uA uB : User) (hA : mget st.users A = some uA) (hB : mget st.users B = some uB)
    (hlt : uA.balance < a) :
    send_usdc st A B a = (Except.error "Insufficient balance", st) := by
  simp [send_usdc, hA, hB, hlt]

/-- C6 witness: account 1 (balance 0) cannot send 1 unit to account 2;
the state is returned unchanged. -/
theorem c6_witness :
    send_usdc (twoUserState 0 5) 1 2 1 =
      (Except.error "Insufficient balance", twoUserState 0 5) :=
  c6_insufficient_transfer_atomic (twoUserState 0 5) 1 2 1
    { address := 1, phone := "555-0100", is_verified := false, balance := 0 }
    { address := 2, phone := "555-0200", is_verified := false, balance := 5 }
    (by decide) (by decide) (by decide)

/-! ### C7 -/

/-- C7: registering a present identity fails with `User already exists`
and returns the state unchanged; registering an absent identity succeeds
and stores an account with the given contact, `is_verified = false` and
balance exactly 0, after which a second registration of the same
identity fails and changes nothing. -/
theorem c7_register_spec (st : ContractState) (u : Nat) (phone phone2 : String) :
    (containsKey st.users u = true →
      register_user st u phone = (Except.error "User already exists", st)) ∧
    (containsKey st.users u = false →
      register_user st u phone =
        (Except.ok (), { st with users := mset st.users u (freshUser u phone) }) ∧
      register_user { st with users := mset st.users u (freshUser u phone) } u phone2 =
        (Except.error "User already exists",
          { st with users := mset st.users u (freshUser u phone) })) := by
  constructor
  · intro h
    simp [register_user, h]
  · intro h
    refine ⟨by simp [register_user, h, freshUser], ?_⟩
    have hc : containsKey (mset st.users u (freshUser u phone)) u = true := by
      simp [containsKey, mget_mset_self]
    simp [register_user, hc]

/-- C7 witness: on the empty state, registering account 1 succeeds with
a zero-balance unverified record, and registering it again fails. -/
theorem c7_witness :
    register_user emptyState 1 "555-0100" =
      (Except.ok (),
        { emptyState with users := mset emptyState.users 1 (freshUser 1 "555-0100") }) ∧
    register_user
        { emptyState with users := mset emptyState.users 1 (freshUser 1 "555-0100") }
        1 "555-9999" =
      (Except.error "User already exists",
        { emptyState with users := mset emptyState.users 1 (freshUser 1 "555-0100") }) :=
  (c7_register_spec emptyState 1 "555-0100" "555-9999").2 rfl

/-! ### C3 -/

/-- C3 (code evaluated at the failing input): the status-update
operations read no caller identity at all — after `init` (contract
address 7) the stored admin equals the contract's own address, the
authorization comparison always passes, and an invocation on behalf of
any (hence also a non-administrator) caller succeeds: the pending bill
and the pending withdrawal both move to status `completed`, observable
via the listing operations, instead of the claimed `Unauthorized`
failure that leaves the status `pending`. -/
theorem c3_update_status_not_gated :
    (update_bill_status ⟨7, 200⟩ (init ⟨7, 200⟩ billStateNoAdmin)
        "bill_100" "completed").map (fun r => (r.1, get_bill_payments r.2 1)) =
      some (Except.ok (), [{ pendingBill with status := "completed" }]) ∧
    (update_withdrawal_status ⟨7, 200⟩ (init ⟨7, 200⟩ billStateNoAdmin)
        "withdraw_100" "completed").map (fun r => (r.1, get_withdrawals r.2 1)) =
      some (Except.ok (), [{ pendingWithdrawal with status := "completed" }]) :=
  ⟨by decide, by decide⟩

/-! ### C9 -/

/-- C9: `init` stores the contract's own address as the admin value, and
whenever the stored admin equals the environment's contract address —
the configuration `init` establishes — both status-update operations
never return `Unauthorized`: they return `ok` (updating the named
request's status) when the request exists and `not found` otherwise, for
every caller. -/
theorem c9_unauthorized_unreachable (env : Env) (st : ContractState) (rid s : String)
    (h : st.admin = some env.contractAddress) :
    (init env st).admin = some env.contractAddress ∧
    (∃ r, update_bill_status env st rid s = some r ∧
      r.1 ≠ Except.error "Unauthorized") ∧
    (∃ r, update_withdrawal_status env st rid s = some r ∧
      r.1 ≠ Except.error "Unauthorized") ∧
    (∀ b, mget st.bills rid = some b →
      update_bill_status env st rid s =
        some (Except.ok (),
          { st with bills := mset st.bills rid { b with status := s } })) ∧
    (∀ w, mget st.withdrawals rid = some w →
      update_withdrawal_status env st rid s =
        some (Except.ok (),
          { st with withdrawals := mset st.withdrawals rid { w with status := s } })) := by
  refine ⟨rfl, ?_, ?_, ?_, ?_⟩
  · cases hm : mget st.bills rid with
    | none =>
      exact ⟨(Except.error "Payment not found", st),
        by simp [update_bill_status, h, hm], by simp⟩
    | some b =>
      exact ⟨(Except.ok (), { st with bills := mset st.bills rid { b with status := s } }),
        by simp [update_bill_status, h, hm], by simp⟩
  · cases hm : mget st.withdrawals rid with
    | none =>
      exact ⟨(Except.error "Withdrawal not found", st),
        by simp [update_withdrawal_status, h, hm], by simp⟩
    | some w =>
      exact ⟨(Except.ok (),
          { st with withdrawals := mset st.withdrawals rid { w with status := s } }),
        by simp [update_withdrawal_status, h, hm], by simp⟩
  · intro b hm
    simp [update_bill_status, h, hm]
  · intro w hm
    simp [update_withdrawal_status, h, hm]

/-- C9 witness: in the post-`init` state with contract address 7, a
status update of the pending bill does not fail with `Unauthorized`. -/
theorem c9_witness :
    ∃ r, update_bill_status ⟨7, 555⟩ billState "bill_100" "done" = some r ∧
      r.1 ≠ Except.error "Unauthorized" :=
  (c9_unauthorized_unreachable ⟨7, 555⟩ billState "bill_100" "done" rfl).2.1

/-! ### C10 -/

/-- C10: invoked before `init` has stored an admin identity, the
status-update operations panic — they unwrap the absent admin slot —
and that is the only way they panic: after `init` they always return a
typed value; the other public operations treat missing stored maps as
empty and return typed error values (shown for lookup, deposit and
listing on the completely empty state). -/
theorem c10_update_panics_iff_uninit (env : Env) (st : ContractState)
    (rid s : String) (u : Nat) :
    (update_bill_status env st rid s = none ↔ st.admin = none) ∧
    (update_withdrawal_status env st rid s = none ↔ st.admin = none) ∧
    (update_bill_status env (init env st) rid s).isSome ∧
    (update_withdrawal_status env (init env st) rid s).isSome ∧
    get_user emptyState u = Except.error "User not found" ∧
    deposit emptyState u 5 = (Except.error "User not found", emptyState) ∧
    get_bill_payments emptyState u = [] := by
  have hbill : ∀ (st' : ContractState) (a : Nat), st'.admin = some a →
      (update_bill_status env st' rid s).isSome := by
    intro st' a h
    simp only [update_bill_status, h]
    by_cases hc : env.contractAddress ≠ a
    · simp [hc]
    · simp only [hc, if_false]
      cases mget st'.bills rid <;> simp
  have hwd : ∀ (st' : ContractState) (a : Nat), st'.admin = some a →
      (update_withdrawal_status env st' rid s).isSome := by
    intro st' a h
    simp only [update_withdrawal_status, h]
    by_cases hc : env.contractAddress ≠ a
    · simp [hc]
    · simp only [hc, if_false]
      cases mget st'.withdrawals rid <;> simp
  refine ⟨?_, ?_, hbill (init env st) env.contractAddress rfl,
    hwd (init env st) env.contractAddress rfl, rfl, rfl, rfl⟩
  · cases h : st.admin with
    | none => simp [update_bill_status, h]
    | some a =>
      have := hbill st a h
      constructor
      · intro hn; rw [hn] at this; simp at this
      · intro hn; simp at hn
  · cases h : st.admin with
    | none => simp [update_withdrawal_status, h]
    | some a =>
      have := hwd st a h
      constructor
      · intro hn; rw [hn] at this; simp at this
      · intro hn; simp at hn

/-! ### C5 -/

/-- C5: `pay_bill` is debit-then-record: with the identity absent it
returns `User not found` and the unchanged state; with insufficient
balance it returns `Insufficient balance` and the unchanged state (no
record, no balance change); otherwise it decrements the balance by the
amount, stores one pending `BillPayment` under the id
`bill_<timestamp>` derived from the current ledger timestamp, and
returns that id. -/
theorem c5_pay_bill_spec (env : Env) (st : ContractState) (u : Nat)
    (bt acct : String) (a : Int) :
    (mget st.users u = none →
      pay_bill env st u bt acct a = (Except.error "User not found", st)) ∧
    (∀ user, mget st.users u = some user → user.balance < a →
      pay_bill env st u bt acct a = (Except.error "Insufficient balance", st)) ∧
    (∀ user, mget st.users u = some user → ¬ user.balance < a →
      pay_bill env st u bt acct a =
        (Except.ok ("bill_" ++ Nat.repr env.timestamp),
          { st with
              users := mset st.users u ({ user with balance := user.balance - a }),
              bills := mset st.bills ("bill_" ++ Nat.repr env.timestamp)
                ({ id := "bill_" ++ Nat.repr env.timestamp, user_address := u,
                   bill_type := bt, account_number := acct, amount := a,
                   status := "pending", timestamp := env.timestamp }) })) := by
  refine ⟨?_, ?_, ?_⟩
  · intro h
    simp [pay_bill, h]
  · intro user h hlt
    simp [pay_bill, h, hlt]
  · intro user h hge
    simp [pay_bill, h, hge]

/-- C5 witness: account 1 with balance 1000 pays a 300 bill at
timestamp 100: the balance drops to 700 and the pending record is
stored under and returned as `bill_100`. -/
theorem c5_witness :
    pay_bill ⟨0, 100⟩ (oneUserState 1000) 1 "electricity" "ACC123" 300 =
      (Except.ok ("bill_" ++ Nat.repr (100 : Nat)),
        { oneUserState 1000 with
            users := mset (oneUserState 1000).users 1
              ({ address := 1, phone := "555-0100", is_verified := false, balance := 700 }),
            bills := mset (oneUserState 1000).bills ("bill_" ++ Nat.repr (100 : Nat))
              ({ id := "bill_" ++ Nat.repr (100 : Nat), user_address := 1,
                 bill_type := "electricity", account_number := "ACC123", amount := 300,
                 status := "pending", timestamp := 100 }) }) :=
  (c5_pay_bill_spec ⟨0, 100⟩ (oneUserState 1000) 1 "electricity" "ACC123" 300).2.2
    { address := 1, phone := "555-0100", is_verified := false, balance := 1000 }
    rfl (by decide)

/-! ### C8 -/

theorem foldl_owned_eq {V : Type} (owner : V → Nat) (u : Nat) :
    ∀ (l : List (String × V)) (acc : List V),
      l.foldl (fun acc p => if owner p.2 = u then acc ++ [p.2] else acc) acc =
        acc ++ (l.filter (fun p => owner p.2 == u)).map Prod.snd := by
  intro l
  induction l with
  | nil => intro acc; simp
  | cons p rest ih =>
    intro acc
    by_cases hp : owner p.2 = u
    · simp [List.foldl_cons, hp, ih, List.filter_cons]
    · simp [List.foldl_cons, hp, ih, List.filter_cons]

/-- C8: each listing operation equals the stored collection filtered by
owning identity and projected to its records — a deterministic function
of the stored map — so every returned element is owned by the queried
identity and every stored request owned by that identity appears in the
result. -/
theorem c8_listing_spec (st : ContractState) (u : Nat) :
    get_bill_payments st u =
      (st.bills.filter (fun p => p.2.user_address == u)).map Prod.snd ∧
    get_withdrawals st u =
      (st.withdrawals.filter (fun p => p.2.user_address == u)).map Prod.snd ∧
    (∀ b : BillPayment, b ∈ get_bill_payments st u ↔
      b.user_address = u ∧ ∃ k, (k, b) ∈ st.bills) ∧
    (∀ w : Withdrawal, w ∈ get_withdrawals st u ↔
      w.user_address = u ∧ ∃ k, (k, w) ∈ st.withdrawals) := by
  have hb : get_bill_payments st u =
      (st.bills.filter (fun p => p.2.user_address == u)).map Prod.snd := by
    have := foldl_owned_eq (fun v : BillPayment => v.user_address) u st.bills []
    simpa [get_bill_payments] using this
  have hw : get_withdrawals st u =
      (st.withdrawals.filter (fun p => p.2.user_address == u)).map Prod.snd := by
    have := foldl_owned_eq (fun v : Withdrawal => v.user_address) u st.withdrawals []
    simpa [get_withdrawals] using this
  refine ⟨hb, hw, ?_, ?_⟩
  · intro b
    rw [hb]
    simp only [List.mem_map, List.mem_filter]
    constructor
    · rintro ⟨p, ⟨hmem, hown⟩, rfl⟩
      exact ⟨by simpa using hown, p.1, hmem⟩
    · rintro ⟨hown, k, hmem⟩
      exact ⟨(k, b), ⟨hmem, by simpa using hown⟩, rfl⟩
  · intro w
    rw [hw]
    simp only [List.mem_map, List.mem_filter]
    constructor
    · rintro ⟨p, ⟨hmem, hown⟩, rfl⟩
      exact ⟨by simpa using hown, p.1, hmem⟩
    · rintro ⟨hown, k, hmem⟩
      exact ⟨(k, w), ⟨hmem, by simpa using hown⟩, rfl⟩

/-! ### C4: uniqueness of the timestamp-derived ids -/

theorem toDigitsCore_append (b : Nat) :
    ∀ (fuel n : Nat) (ds : List Char),
      Nat.toDigitsCore b fuel n ds = Nat.toDigitsCore b fuel n [] ++ ds := by
  intro fuel
  induction fuel with
  | zero => intro n ds; simp [Nat.toDigitsCore]
  | succ f ih =>
    intro n ds
    simp only [Nat.toDigitsCore]
    by_cases h : n / b = 0
    · simp [h]
    · simp only [h, if_false]
      rw [ih (n / b) (Nat.digitChar (n % b) :: ds), ih (n / b) [Nat.digitChar (n % b)]]
      simp

theorem digitVal_digitChar (n : Nat) (h : n < 10) :
    digitVal (Nat.digitChar n) = n := by
  interval_cases n <;> decide

theorem unreprAux_toDigitsCore (fuel : Nat) :
    ∀ n, n < fuel → unreprAux 0 (Nat.toDigitsCore 10 fuel n []) = n := by
  induction fuel with
  | zero => intro n h; exact absurd h (Nat.not_lt_zero n)
  | succ f ih =>
    intro n h
    simp only [Nat.toDigitsCore]
    by_cases h10 : n / 10 = 0
    · have hlt : n % 10 < 10 := Nat.mod_lt n (by norm_num)
      simp [h10, unreprAux, digitVal_digitChar (n % 10) hlt]
      omega
    · simp only [h10, if_false]
      rw [toDigitsCore_append 10 f (n / 10) [Nat.digitChar (n % 10)]]
      have hn' : n / 10 < f := by
        have h1 : n / 10 < n := Nat.div_lt_self (by omega) (by norm_num)
        omega
      simp only [unreprAux, List.foldl_append, List.foldl_cons, List.foldl_nil]
      have hrec := ih (n / 10) hn'
      simp only [unreprAux] at hrec
      rw [hrec, digitVal_digitChar (n % 10) (Nat.mod_lt n (by norm_num))]
      omega

theorem toDigits_ten_injective (m n : Nat)
    (h : Nat.toDigits 10 m = Nat.toDigits 10 n) : m = n := by
  have hm := unreprAux_toDigitsCore (m + 1) m (Nat.lt_succ_self m)
  have hn := unreprAux_toDigitsCore (n + 1) n (Nat.lt_succ_self n)
  rw [show Nat.toDigits 10 m = Nat.toDigitsCore 10 (m + 1) m [] from rfl,
      show Nat.toDigits 10 n = Nat.toDigitsCore 10 (n + 1) n [] from rfl] at h
  rw [← hm, ← hn, h]

/-- Ids built by appending the decimal timestamp to a fixed leading
string are injective in the timestamp. -/
theorem id_of_timestamp_inj (p : String) {t1 t2 : Nat}
    (h : p ++ Nat.repr t1 = p ++ Nat.repr t2) : t1 = t2 := by
  have hd := congrArg String.data h
  simp only [String.data_append] at hd
  have hcl := List.append_cancel_left hd
  apply toDigits_ten_injective
  simpa [Nat.repr, List.asString] using hcl

theorem pay_bill_ok_id {env : Env} {st : ContractState} {u : Nat}
    {bt acct : String} {a : Int} {pid : String}
    (h : (pay_bill env st u bt acct a).1 = Except.ok pid) :
    pid = "bill_" ++ Nat.repr env.timestamp := by
  unfold pay_bill at h
  cases hm : mget st.users u with
  | none => rw [hm] at h; simp at h
  | some user =>
    rw [hm] at h
    by_cases hb : user.balance < a
    · simp [hb] at h
    · simp [hb] at h
      exact h.symm

theorem withdraw_ok_id {env : Env} {st : ContractState} {u : Nat}
    {m acct : String} {ua ga : Int} {wid : String}
    (h : (withdraw env st u m acct ua ga).1 = Except.ok wid) :
    wid = "withdraw_" ++ Nat.repr env.timestamp := by
  unfold withdraw at h
  cases hm : mget st.users u with
  | none => rw [hm] at h; simp at h
  | some user =>
    rw [hm] at h
    by_cases hb : user.balance < ua
    · simp [hb] at h
    · simp [hb] at h
      exact h.symm

/-- C4 (counterexample): two successful `pay_bill` calls in the same
ledger tick (timestamp 100) both return the id `bill_100`, and
afterwards the bills collection holds a single record — the second
creation's — so the generated ids are not distinct and the second
creation overwrote the first record. -/
theorem c4_counterexample :
    (pay_bill ⟨0, 100⟩ (oneUserState 1000) 1 "electricity" "ACC123" 300).1 =
      Except.ok "bill_100" ∧
    (pay_bill ⟨0, 100⟩
        (pay_bill ⟨0, 100⟩ (oneUserState 1000) 1 "electricity" "ACC123" 300).2
        1 "water" "ACC456" 200).1 = Except.ok "bill_100" ∧
    (pay_bill ⟨0, 100⟩
        (pay_bill ⟨0, 100⟩ (oneUserState 1000) 1 "electricity" "ACC123" 300).2
        1 "water" "ACC456" 200).2.bills =
      [("bill_100",
        { id := "bill_100", user_address := 1, bill_type := "water",
          account_number := "ACC456", amount := 200, status := "pending",
          timestamp := 100 })] :=
  ⟨by decide, by decide, by decide⟩

/-- C4 (amended): the id returned by a successful `pay_bill` or
`withdraw` determines and is determined by the creation timestamp: two
successful creations in the same collection receive distinct ids exactly
when their ledger timestamps are distinct; at equal timestamps the ids
coincide (and the later creation overwrites the earlier record). -/
theorem c4_id_uniqueness (env1 env2 : Env) (st1 st2 st3 st4 : ContractState)
    (u1 u2 : Nat) (bt1 bt2 acct1 acct2 m1 m2 : String) (a1 a2 g1 g2 : Int)
    (id1 id2 id3 id4 : String)
    (h1 : (pay_bill env1 st1 u1 bt1 acct1 a1).1 = Except.ok id1)
    (h2 : (pay_bill env2 st2 u2 bt2 acct2 a2).1 = Except.ok id2)
    (h3 : (withdraw env1 st3 u1 m1 acct1 g1 a1).1 = Except.ok id3)
    (h4 : (withdraw env2 st4 u2 m2 acct2 g2 a2).1 = Except.ok id4) :
    (id1 = id2 ↔ env1.timestamp = env2.timestamp) ∧
    (id3 = id4 ↔ env1.timestamp = env2.timestamp) := by
  rw [pay_bill_ok_id h1, pay_bill_ok_id h2, withdraw_ok_id h3, withdraw_ok_id h4]
  refine ⟨⟨fun h => id_of_timestamp_inj "bill_" h, fun h => by rw [h]⟩,
    ⟨fun h => id_of_timestamp_inj "withdraw_" h, fun h => by rw [h]⟩⟩

/-- C4 witness: bills and withdrawals created at timestamps 100 and 101
get distinct ids (`bill_100` vs `bill_101`, `withdraw_100` vs
`withdraw_101`), since the timestamps differ. -/
theorem c4_witness :
    (("bill_100" : String) = "bill_101" ↔
      (Env.mk 0 100).timestamp = (Env.mk 0 101).timestamp) ∧
    (("withdraw_100" : String) = "withdraw_101" ↔
      (Env.mk 0 100).timestamp = (Env.mk 0 101).timestamp) :=
  c4_id_uniqueness ⟨0, 100⟩ ⟨0, 101⟩
    (oneUserState 1000) (oneUserState 1000) (oneUserState 1000) (oneUserState 1000)
    1 1 "electricity" "water" "ACC123" "ACC456" "mobile" "bank" 300 200 150 100
    "bill_100" "bill_101" "withdraw_100" "withdraw_101"
    (by decide) (by decide) (by decide) (by decide)

end Payvia
